import Mathlib

/-!
Verification of the Japanese document field-extraction engine
(`src/extractors/japanese_parser.py`, class `JapaneseFieldExtractor`).

Strings are modelled as `List Char`.  Python's `re` module is modelled by a
small backtracking engine (`RE` / `mtch` / `reSearch`) that reproduces the
leftmost-search, alternation-order, greedy/lazy and lookahead semantics of
the patterns actually occurring in the source.  `unicodedata.normalize
("NFKC", ·)` is a library call whose data lives outside the repository: it
is modelled as the compatibility width folding of full-width Latin letters,
full-width digits and the ideographic space (the folding the spec names),
identity on all other characters; real NFKC is idempotent, and so is the
model.
-/

namespace JFE

abbrev Str := List Char

/-- Numeric range test on a character's code point. -/
def between (lo hi : Nat) (c : Char) : Bool := Nat.ble lo c.toNat && Nat.ble c.toNat hi

/-- ASCII upper-case letter, the `[A-Z]` class of the source patterns. -/
def isUpperAZ (c : Char) : Bool := between 65 90 c

/-- ASCII lower-case letter. -/
def isLowerAZ (c : Char) : Bool := between 97 122 c

/-- Python `\d` restricted to the digit shapes relevant here: ASCII digits
and full-width digits (both are Unicode `Nd`, which Python's `\d` matches). -/
def isDigitB (c : Char) : Bool := between 48 57 c || between 0xFF10 0xFF19 c

/-- The `[ \t]` class of `normalize_text`. -/
def isSpTab (c : Char) : Bool := c == ' ' || c == '\t'

/-- Python `\s` / `str.isspace` on the character repertoire used here. -/
def isWS (c : Char) : Bool :=
  c == ' ' || c == '\t' || c == '\n' || c == '\r' ||
  c.toNat == 11 || c.toNat == 12 || c.toNat == 0xA0 || c.toNat == 0x3000

/-- Newline test, the `\n` class. -/
def isNLc (c : Char) : Bool := c == '\n'

/-- The `[一-龯]` (kanji) class used verbatim in the source patterns. -/
def isCJKClass (c : Char) : Bool := between 0x4E00 0x9FAF c

/-- The `[぀-ゟ]` (hiragana) class of the source patterns. -/
def isHira (c : Char) : Bool := between 0x3040 0x309F c

/-- The `[゠-ヿ]` (katakana) class of the source patterns. -/
def isKata (c : Char) : Bool := between 0x30A0 0x30FF c

/-- Python `\w` (word character) on the repertoire used here: ASCII
alphanumerics, underscore, kanji, kana and full-width alphanumerics.
`・` (U+30FB, category Po) and `゠` (U+30A0, category Pd) are not word
characters, matching Python. -/
def isWordC (c : Char) : Bool :=
  between 48 57 c || between 65 90 c || between 97 122 c || c == '_' ||
  between 0x4E00 0x9FFF c || between 0x3040 0x309F c ||
  between 0x30A1 0x30FA c || between 0x30FC 0x30FF c ||
  between 0xFF10 0xFF19 c || between 0xFF21 0xFF3A c || between 0xFF41 0xFF5A c

/-- Python `str.lower`, character-wise, for ASCII and full-width Latin. -/
def pyLower (c : Char) : Char :=
  if between 65 90 c then Char.ofNat (c.toNat + 32)
  else if between 0xFF21 0xFF3A c then Char.ofNat (c.toNat + 32)
  else c

/-- Python `str.upper`, character-wise, for ASCII and full-width Latin. -/
def pyUpper (c : Char) : Char :=
  if between 97 122 c then Char.ofNat (c.toNat - 32)
  else if between 0xFF41 0xFF5A c then Char.ofNat (c.toNat - 32)
  else c

/-- Python's substring test `needle in hay`. -/
def pyContains : Str → Str → Bool
  | n, [] => n.isEmpty
  | n, h :: t => List.isPrefixOf n (h :: t) || pyContains n t

/-- Python's `str.find` (first index of a substring; only used after a
successful containment test, so the not-found value is irrelevant). -/
def pyFind : Str → Str → Nat
  | _, [] => 0
  | n, h :: t => if List.isPrefixOf n (h :: t) then 0 else pyFind n t + 1

/-- Remove the trailing run of characters satisfying `p`. -/
def dropTrailing (p : Char → Bool) : Str → Str
  | [] => []
  | c :: rest =>
    match dropTrailing p rest with
    | [] => if p c then [] else [c]
    | r => c :: r

/-- Python `str.strip()`. -/
def pyStrip (s : Str) : Str := dropTrailing isWS (s.dropWhile isWS)

/-- `re.sub(class+, r0, text)`: replace every maximal run of characters
satisfying `p` by the single character `r0`. -/
def collapseRuns (p : Char → Bool) (r0 : Char) : Str → Str
  | [] => []
  | [c] => if p c then [r0] else [c]
  | c :: d :: rest =>
    if p c then
      (if p d then collapseRuns p r0 (d :: rest) else r0 :: collapseRuns p r0 (d :: rest))
    else c :: collapseRuns p r0 (d :: rest)

/-- Compatibility width-folding table modelling `unicodedata.normalize("NFKC", ·)`
on the characters this engine cares about: full-width digits, full-width Latin
letters and the ideographic space.  Every image character is a fixed point of
the table, as in real NFKC. -/
def nfkcTable : List (Char × Char) :=
  ((List.range 10).map fun i => (Char.ofNat (0xFF10 + i), Char.ofNat (48 + i))) ++
  ((List.range 26).map fun i => (Char.ofNat (0xFF21 + i), Char.ofNat (65 + i))) ++
  ((List.range 26).map fun i => (Char.ofNat (0xFF41 + i), Char.ofNat (97 + i))) ++
  [('　', ' ')]

/-- Modelled from the spec: character-wise NFKC folding (see `nfkcTable`).
`unicodedata.normalize` itself is standard-library code, not part of the
repository. -/
def nfkcChar (c : Char) : Str :=
  match nfkcTable.find? (fun p => p.1 == c) with
  | some p => [p.2]
  | none => [c]

/-- NFKC normalization of a string, character-wise over `nfkcChar`. -/
def nfkc (s : Str) : Str := s.flatMap nfkcChar

/-- `JapaneseFieldExtractor.normalize_text`: NFKC fold, collapse runs of
spaces/tabs to one space, collapse runs of newlines to one newline, strip. -/
def normalize_text (s : Str) : Str :=
  if s.isEmpty then []
  else pyStrip (collapseRuns isNLc '\n' (collapseRuns isSpTab ' ' (nfkc s)))

/-! ### A small backtracking regular-expression engine

Only the constructs appearing in the source's patterns are supported:
literals, character classes, concatenation, alternation (tried in order),
counted/starred/plussed repetition of a character class (greedy or lazy),
one-level numbered groups, zero-width lookahead, `^`, `$` (with or without
`re.MULTILINE`) and `\b`.  The match order reproduces CPython's backtracking
order, so `reSearch` returns exactly the match `re.search` returns. -/

inductive RE where
  | eps
  | lit (cs : Str)
  | cls (p : Char → Bool)
  | seq (a b : RE)
  | alt (a b : RE)
  | rep (p : Char → Bool) (lo : Nat) (hi : Option Nat) (lazyQ : Bool)
  | group (n : Nat) (a : RE)
  | look (a : RE)
  | bol
  | eol
  | wb

/-- Concatenation of a pattern list. -/
def cat (l : List RE) : RE := l.foldr RE.seq RE.eps

/-- Ordered alternation of a pattern list. -/
def altl : List RE → RE
  | [] => .eps
  | [e] => e
  | e :: t => .alt e (altl t)

abbrev Groups := List (Nat × Nat × Nat)

/-- Character of `s` at index `i`, if any. -/
def charAt (s : Str) (i : Nat) : Option Char := (s.drop i).head?

/-- Single-character comparison under optional `re.IGNORECASE`. -/
def cEq (ic : Bool) (a b : Char) : Bool :=
  if ic then pyLower a == pyLower b else a == b

/-- Match a literal at index `i`; returns the index past the literal. -/
def litAt (ic : Bool) (s : Str) : Str → Nat → Option Nat
  | [], i => some i
  | c :: cs, i =>
    match charAt s i with
    | some d => if cEq ic c d then litAt ic s cs (i + 1) else none
    | none => none

/-- Class membership under optional `re.IGNORECASE` (Python also tries the
case-swapped character against the class). -/
def clsAt (ic : Bool) (p : Char → Bool) (c : Char) : Bool :=
  p c || (ic && (p (pyLower c) || p (pyUpper c)))

/-- Length of the run of characters satisfying the class. -/
def countRun (ic : Bool) (p : Char → Bool) : Str → Nat
  | [] => 0
  | c :: t => if clsAt ic p c then countRun ic p t + 1 else 0

/-- The list `[lo, lo+1, …, lo+n-1]`. -/
def countsFrom (lo : Nat) : Nat → List Nat
  | 0 => []
  | n + 1 => lo :: countsFrom (lo + 1) n

/-- First success over a candidate list. -/
def firstSome (f : Nat → Option (Nat × Groups)) : List Nat → Option (Nat × Groups)
  | [] => none
  | n :: t =>
    match f n with
    | some r => some r
    | none => firstSome f t

/-- Word-character test at a position (false outside the string). -/
def wordAt (s : Str) (i : Nat) : Bool :=
  match charAt s i with
  | some c => isWordC c
  | none => false

/-- Backtracking matcher in continuation style.  `mtch ic ml s e i k g`
attempts to match `e` at index `i` of `s` and passes the index past the
match (plus accumulated groups) to `k`; the first success in Python's
backtracking order wins. -/
def mtch (ic ml : Bool) (s : Str) :
    RE → Nat → (Nat → Groups → Option (Nat × Groups)) → Groups → Option (Nat × Groups)
  | .eps, i, k, g => k i g
  | .lit cs, i, k, g =>
    match litAt ic s cs i with
    | some j => k j g
    | none => none
  | .cls p, i, k, g =>
    match charAt s i with
    | some c => if clsAt ic p c then k (i + 1) g else none
    | none => none
  | .seq a b, i, k, g => mtch ic ml s a i (fun j g2 => mtch ic ml s b j k g2) g
  | .alt a b, i, k, g =>
    match mtch ic ml s a i k g with
    | some r => some r
    | none => mtch ic ml s b i k g
  | .rep p lo hi lz, i, k, g =>
    let run := countRun ic p (s.drop i)
    let mx := match hi with | some h => min h run | none => run
    if lo ≤ mx then
      let cands := if lz then countsFrom lo (mx + 1 - lo) else (countsFrom lo (mx + 1 - lo)).reverse
      firstSome (fun n => k (i + n) g) cands
    else none
  | .group n a, i, k, g => mtch ic ml s a i (fun j g2 => k j ((n, i, j) :: g2)) g
  | .look a, i, k, g =>
    match mtch ic ml s a i (fun j g2 => some (j, g2)) g with
    | some _ => k i g
    | none => none
  | .bol, i, k, g =>
    if i == 0 || (ml && charAt s (i - 1) == some '\n') then k i g else none
  | .eol, i, k, g =>
    if (s.drop i).isEmpty || (charAt s i == some '\n' && (ml || (s.drop i).length == 1))
    then k i g else none
  | .wb, i, k, g =>
    let prevW := if i == 0 then false else wordAt s (i - 1)
    let curW := wordAt s i
    if prevW != curW then k i g else none

/-- Search loop: try every start index from `i` on (`rest = s.drop i`
drives the recursion), returning `(start, stop, groups)` of the leftmost
match, exactly like `re.search`. -/
def searchAux (ic ml : Bool) (s : Str) (e : RE) : Nat → Str → Option (Nat × Nat × Groups)
  | i, rest =>
    match mtch ic ml s e i (fun j g => some (j, g)) [] with
    | some (j, g) => some (i, j, g)
    | none =>
      match rest with
      | [] => none
      | _ :: t => searchAux ic ml s e (i + 1) t

/-- `re.search` over the whole string. -/
def reSearch (ic ml : Bool) (e : RE) (s : Str) : Option (Nat × Nat × Groups) :=
  searchAux ic ml s e 0 s

/-- Content of capture group `n` of a match over `s`. -/
def grp (s : Str) (g : Groups) (n : Nat) : Option Str :=
  match g.find? (fun e => e.1 == n) with
  | some e => some ((s.drop e.2.1).take (e.2.2 - e.2.1))
  | none => none

/-- Whole text of a match (`match.group(0)`). -/
def mSlice (s : Str) (m : Nat × Nat × Groups) : Str := (s.drop m.1).take (m.2.1 - m.1)

/-! ### Data model -/

/-- A field value of the result dict: a string, a list of strings, or the
explicit absent marker (`None` in the source). -/
inductive JVal where
  | null
  | str (s : Str)
  | list (l : List Str)
deriving DecidableEq, Repr

/-- An extraction result: the Python dict, modelled as an association list
in the source's literal key order. -/
abbrev Rec := List (Str × JVal)

/-- Keys of a result, in order. -/
def listKeys (r : Rec) : List Str := r.map (·.1)

/-- Dict lookup: `none` means the key is missing, `some JVal.null` means the
key is present with value `None`. -/
def lookupF (r : Rec) (k : Str) : Option JVal :=
  (r.find? (fun p => p.1 == k)).map (·.2)

def toJ : Option Str → JVal
  | some s => .str s
  | none => .null

def toJL : Option (List Str) → JVal
  | some l => .list l
  | none => .null

/-- Pair-of-strings helper for lexicon tables. -/
def sp (a b : String) : Str × Str := (a.toList, b.toList)

def DOC_RESIDENCE_CARD : Str := "RESIDENCE_CARD".toList
def DOC_MYNUMBER_CARD : Str := "MYNUMBER_CARD".toList
def DOC_DRIVING_LICENSE : Str := "DRIVING_LICENSE".toList

def RESIDENCE_CARD_FIELDS : List Str :=
  (["full_name", "full_name_japanese", "date_of_birth", "nationality", "region",
    "gender", "status_of_residence", "period_of_stay", "work_restriction",
    "card_number", "issue_date", "expiry_date", "address"]).map String.toList

def MYNUMBER_CARD_FIELDS : List Str :=
  (["full_name", "full_name_romaji", "date_of_birth", "gender", "address",
    "my_number", "issue_date", "expiry_date", "digital_cert_expiry"]).map String.toList

def DRIVING_LICENSE_FIELDS : List Str :=
  (["full_name", "date_of_birth", "address", "license_number", "issue_date",
    "expiry_date", "license_categories", "conditions", "issuing_authority"]).map String.toList

def GENDER_MAP : List (Str × Str) :=
  [sp "男" "MALE", sp "女" "FEMALE", sp "男性" "MALE", sp "女性" "FEMALE",
   sp "M" "MALE", sp "F" "FEMALE", sp "Male" "MALE", sp "Female" "FEMALE"]

def NATIONALITY_MAP : List (Str × Str) :=
  [sp "中国" "CHINA", sp "韓国" "SOUTH KOREA", sp "フィリピン" "PHILIPPINES",
   sp "ベトナム" "VIETNAM", sp "ブラジル" "BRAZIL", sp "ネパール" "NEPAL",
   sp "インドネシア" "INDONESIA", sp "台湾" "TAIWAN", sp "タイ" "THAILAND",
   sp "米国" "USA", sp "アメリカ" "USA", sp "インド" "INDIA",
   sp "ミャンマー" "MYANMAR", sp "バングラデシュ" "BANGLADESH",
   sp "スリランカ" "SRI LANKA", sp "パキスタン" "PAKISTAN", sp "ペルー" "PERU"]

def RESIDENCE_STATUS_LIST : List Str :=
  (["技術・人文知識・国際業務", "技術·人文知識·国際業務", "特定技能1号", "特定技能2号",
    "技能実習1号", "技能実習2号", "技能実習3号", "留学", "家族滞在", "日本人の配偶者等",
    "永住者の配偶者等", "永住者", "定住者", "特別永住者", "技能", "経営・管理",
    "企業内転勤", "研究", "教育", "高度専門職1号", "高度専門職2号", "介護",
    "特定活動"]).map String.toList

/-- First lexicon entry whose key occurs in `x`; returns the mapped value. -/
def firstMapHit : List (Str × Str) → Str → Option Str
  | [], _ => none
  | p :: rest, x => if pyContains p.1 x then some p.2 else firstMapHit rest x

/-- First lexicon entry whose key occurs in `x`; returns the key itself. -/
def firstMapKeyHit : List (Str × Str) → Str → Option Str
  | [], _ => none
  | p :: rest, x => if pyContains p.1 x then some p.1 else firstMapKeyHit rest x

/-- First element of a closed list that occurs in `x`. -/
def firstContained : List Str → Str → Option Str
  | [], _ => none
  | s :: rest, x => if pyContains s x then some s else firstContained rest x

/-! ### Compiled patterns (`_compile_patterns` plus the per-extractor
pattern literals) -/

/-- Literal helper. -/
def sL (s : String) : RE := .lit s.toList

/-- `\s*` -/
def wsStar : RE := .rep isWS 0 none false

/-- The `[:\s]` class. -/
def colonWS (c : Char) : Bool := c == ':' || isWS c

/-- `[:\s]*` (also used for `[:\s\n]*`, since `\n` is in `\s`). -/
def colonWSStar : RE := .rep colonWS 0 none false

/-- `[^\n]` (the `.` of patterns compiled without `re.DOTALL`). -/
def notNL (c : Char) : Bool := !(c == '\n')

/-- `.` under `re.DOTALL`. -/
def anyC (_ : Char) : Bool := true

/-- `[^\n\d]` -/
def notNLDigit (c : Char) : Bool := !(c == '\n' || isDigitB c)

/-- Residence-card number shape `[A-Z]{2}\d{8}[A-Z]{2}`. -/
def residence_card_pattern : RE :=
  cat [.rep isUpperAZ 2 (some 2) false, .rep isDigitB 8 (some 8) false,
       .rep isUpperAZ 2 (some 2) false]

/-- `\b\d{12}\b` (My Number shape). -/
def mynumber_pattern : RE := cat [.wb, .rep isDigitB 12 (some 12) false, .wb]

/-- `\b\d{12}\b|\b\d{2}-\d{2}-\d{6}-\d{2}\b` (license number shapes). -/
def license_number_pattern : RE :=
  altl [cat [.wb, .rep isDigitB 12 (some 12) false, .wb],
        cat [.wb, .rep isDigitB 2 (some 2) false, sL "-", .rep isDigitB 2 (some 2) false,
             sL "-", .rep isDigitB 6 (some 6) false, sL "-", .rep isDigitB 2 (some 2) false, .wb]]

/-- One alternative of `jp_date_pattern`: era prefix (possibly empty, with a
4-digit year for the Gregorian form) then `年/月/日` components. -/
def jpDateArm (era : String) (ylo yhi : Nat) : RE :=
  cat [sL era, .rep isDigitB ylo (some yhi) false, sL "年",
       .rep isDigitB 1 (some 2) false, sL "月", .rep isDigitB 1 (some 2) false, sL "日"]

/-- `jp_date_pattern`: Gregorian, Reiwa, Heisei, Showa forms; each
alternative is wrapped in its own group in the source, and the group that
participates is always the whole match. -/
def jp_date_pattern : RE :=
  altl [.group 1 (jpDateArm "" 4 4), .group 2 (jpDateArm "令和" 1 2),
        .group 3 (jpDateArm "平成" 1 2), .group 4 (jpDateArm "昭和" 1 2)]

/-- `\d+年|\d+月|\d+日|令和|平成|昭和` (date-hint fallback check). -/
def dateHint : RE :=
  altl [cat [.rep isDigitB 1 none false, sL "年"],
        cat [.rep isDigitB 1 none false, sL "月"],
        cat [.rep isDigitB 1 none false, sL "日"],
        sL "令和", sL "平成", sL "昭和"]

/-! ### Residence-card extractors -/

/-- `[A-Z\s\-\.]` -/
def nameCls (c : Char) : Bool := isUpperAZ c || isWS c || c == '-' || c == '.'

def romaji_p1 : RE :=
  cat [sL "NAME", wsStar, sL "\n", wsStar,
       .group 1 (cat [.cls isUpperAZ, .rep nameCls 1 none true]),
       .look (altl [cat [wsStar, sL "\n"], .eol])]

def romaji_p2 : RE :=
  cat [altl [sL "NAME", sL "氏名"], wsStar, colonWSStar,
       .group 1 (cat [.cls isUpperAZ, .rep nameCls 1 none true]),
       .look (altl [cat [wsStar, sL "\n"], sL "国籍", .eol])]

def romaji_p3 : RE :=
  cat [altl [.bol, sL "\n"], wsStar,
       .group 1 (cat [.cls isUpperAZ, .rep nameCls 4 none false]),
       altl [cat [wsStar, .eol], sL "\n"]]

def romaji_exclude : List Str :=
  (["RESIDENCE", "CARD", "JAPAN", "IMMIGRATION", "DATE", "BIRTH", "NATIONALITY",
    "REGION", "STATUS", "PERIOD", "STAY", "EXPIRY", "WORK", "RESTRICTION",
    "NUMBER", "SEX"]).map String.toList

/-- Cascade of `_extract_romaji_name` (searched with `re.MULTILINE`). -/
def romajiGo (text : Str) : List RE → Option Str
  | [] => none
  | p :: rest =>
    match reSearch false true p text with
    | some m =>
      match grp text m.2.2 1 with
      | some raw =>
        let name := pyStrip raw
        if (romaji_exclude.any fun ex => pyContains ex name) = false ∧ 3 < name.length
        then some name
        else romajiGo text rest
      | none => romajiGo text rest
    | none => romajiGo text rest

def extract_romaji_name (text : Str) : Option Str :=
  romajiGo text [romaji_p1, romaji_p2, romaji_p3]

/-- Kanji/hiragana/katakana class union of the name patterns. -/
def jpCls (c : Char) : Bool := isCJKClass c || isHira c || isKata c

/-- `[\s　]` (whitespace or ideographic space; the latter is already in `isWS`). -/
def wsOrIdeo (c : Char) : Bool := isWS c || c == '　'

def jname_p1 : RE :=
  cat [altl [sL "氏名", sL "名前"], wsStar, colonWSStar,
       .group 1 (cat [.rep jpCls 1 none false, .rep wsOrIdeo 0 (some 1) false,
                      .rep jpCls 0 none false])]

def extract_japanese_name (text : Str) : Option Str :=
  match reSearch false false jname_p1 text with
  | some m => (grp text m.2.2 1).map pyStrip
  | none => none

/-- `[・/\s]` -/
def natSep (c : Char) : Bool := c == '・' || c == '/' || isWS c

def nat_p1 : RE :=
  cat [sL "国籍", .rep natSep 0 none false, altl [sL "地域", .eps], colonWSStar,
       .group 1 (.rep notNLDigit 1 none true),
       .look (cat [wsStar, altl [sL "生年", sL "DATE", .eol, sL "\n"]])]

/-- `[/\s]` -/
def slashWS (c : Char) : Bool := c == '/' || isWS c

def nat_p2 : RE :=
  cat [sL "NATIONALITY", .rep slashWS 0 none false, sL "REGION", colonWSStar,
       .group 1 (.rep notNL 1 none true),
       .look (cat [wsStar, altl [sL "生年", sL "DATE", .eol, sL "\n"]])]

def nat_badlist : List Str := (["NATIONALITY", "REGION", "地域"]).map String.toList

/-- Cascade of `_extract_nationality` (searched with `re.IGNORECASE`). -/
def natGo (text : Str) : List RE → Option Str
  | [] => none
  | p :: rest =>
    match reSearch true false p text with
    | some m =>
      match grp text m.2.2 1 with
      | some raw =>
        let nationality := pyStrip raw
        match firstMapHit NATIONALITY_MAP nationality with
        | some en => some en
        | none =>
          if nationality.isEmpty = false ∧ nat_badlist.contains nationality = false
          then some nationality
          else natGo text rest
      | none => natGo text rest
    | none => natGo text rest

def extract_nationality (text : Str) : Option Str :=
  match firstMapHit NATIONALITY_MAP text with
  | some en => some en
  | none => natGo text [nat_p1, nat_p2]

def reg_p1 : RE :=
  cat [sL "地域", wsStar, colonWSStar, .group 1 (.rep notNL 1 none true),
       .look (cat [wsStar, altl [sL "生年", .eol, sL "\n"]])]

def reg_badlist : List Str := (["国籍", "NATIONALITY"]).map String.toList

def extract_region (text : Str) : Option Str :=
  match firstMapKeyHit NATIONALITY_MAP text with
  | some jp => some jp
  | none =>
    match reSearch false false reg_p1 text with
    | some m =>
      match grp text m.2.2 1 with
      | some raw =>
        let region := pyStrip raw
        if region.isEmpty = false ∧ reg_badlist.contains region = false
        then some region else none
      | none => none
    | none => none

def status_tail : RE := .look (cat [wsStar, altl [sL "在留期間", sL "PERIOD", .eol, sL "\n"]])

def status_p1 : RE :=
  cat [sL "在留資格", wsStar, colonWSStar, .group 1 (.rep notNL 1 none true), status_tail]

def status_p2 : RE :=
  cat [sL "STATUS", wsStar, colonWSStar, .group 1 (.rep notNL 1 none true), status_tail]

def status_badlist : List Str := (["STATUS", "在留資格"]).map String.toList

/-- Label cascade of `_extract_residence_status` (`re.IGNORECASE`). -/
def statusGo (text : Str) : List RE → Option Str
  | [] => none
  | p :: rest =>
    match reSearch true false p text with
    | some m =>
      match grp text m.2.2 1 with
      | some raw =>
        let status := pyStrip raw
        if status.isEmpty = false ∧ status_badlist.contains status = false
        then some status
        else statusGo text rest
      | none => statusGo text rest
    | none => statusGo text rest

def extract_residence_status (text : Str) : Option Str :=
  match firstContained RESIDENCE_STATUS_LIST text with
  | some s => some s
  | none => statusGo text [status_p1, status_p2]

/-- `\d+年\d*月?` (the captured shape of the first two period patterns). -/
def periodShape : RE :=
  cat [.rep isDigitB 1 none false, sL "年", .rep isDigitB 0 none false, altl [sL "月", .eps]]

def per_p1 : RE := cat [sL "在留期間", wsStar, colonWSStar, .group 1 periodShape]

def per_p2 : RE :=
  cat [sL "PERIOD", wsStar, sL "OF", wsStar, sL "STAY", wsStar, colonWSStar,
       .group 1 periodShape]

def per_p3 : RE :=
  cat [.group 1 (cat [.rep isDigitB 1 none false, sL "年",
                      altl [cat [.rep isDigitB 1 none false, sL "月"], .eps]]),
       wsStar, altl [sL "まで", sL "間"]]

/-- Cascade of `_extract_period_of_stay` (`re.IGNORECASE`). -/
def periodGo (text : Str) : List RE → Option Str
  | [] => none
  | p :: rest =>
    match reSearch true false p text with
    | some m =>
      match grp text m.2.2 1 with
      | some raw =>
        let period := pyStrip raw
        if period.isEmpty = false then some period else periodGo text rest
      | none => periodGo text rest
    | none => periodGo text rest

def extract_period_of_stay (text : Str) : Option Str :=
  periodGo text [per_p1, per_p2, per_p3]

def restriction_statuses : List Str :=
  (["就労制限なし", "就労不可", "在留資格に基づく就労活動のみ可",
    "指定書記載機関での在留資格に基づく就労活動のみ可",
    "資格外活動許可書に記載された範囲内の就労可"]).map String.toList

def extract_work_restriction (text : Str) : Option Str :=
  match firstContained restriction_statuses text with
  | some s => some s
  | none =>
    if pyContains "就労制限なし".toList text || pyContains "制限なし".toList text then
      some "就労制限なし".toList
    else if pyContains "就労不可".toList text then some "就労不可".toList
    else if pyContains "資格外活動許可".toList text then some "資格外活動許可あり".toList
    else none

def extract_residence_card_number (text : Str) : Option Str :=
  match reSearch false false residence_card_pattern text with
  | some m => some (mSlice text m)
  | none => none

/-- `[a-zA-Z一-龯]` (the two-letter lookahead class of `_extract_date_field`). -/
def alphaCJK (c : Char) : Bool := isUpperAZ c || isLowerAZ c || isCJKClass c

/-- The per-label pattern of `_extract_date_field`. -/
def dateLabelRE (label : Str) : RE :=
  cat [.lit label, wsStar, colonWSStar, .group 1 (.rep notNL 1 none true),
       .look (cat [wsStar, altl [.eol, sL "\n", .rep alphaCJK 2 (some 2) false]])]

/-- Search `jp_date_pattern` and return the participating group, which is
always the whole match. -/
def jpDateWhole (x : Str) : Option Str :=
  match reSearch false false jp_date_pattern x with
  | some m => some (mSlice x m)
  | none => none

/-- First phase of `_extract_date_field`: label-anchored capture. -/
def dateFirstPass (text : Str) : List Str → Option Str
  | [] => none
  | label :: rest =>
    match reSearch false false (dateLabelRE label) text with
    | some m =>
      match grp text m.2.2 1 with
      | some raw =>
        let date_text := pyStrip raw
        match jpDateWhole date_text with
        | some g => some g
        | none =>
          if (reSearch false false dateHint date_text).isSome then some date_text
          else dateFirstPass text rest
      | none => dateFirstPass text rest
    | none => dateFirstPass text rest

/-- Second phase: any date in the 50-character window after the label. -/
def dateSecondPass (text : Str) : List Str → Option Str
  | [] => none
  | label :: rest =>
    if pyContains label text then
      let idx := pyFind label text
      let area := (text.drop idx).take 50
      match jpDateWhole area with
      | some g => some g
      | none => dateSecondPass text rest
    else dateSecondPass text rest

def extract_date_field (text : Str) (labels : List Str) : Option Str :=
  match dateFirstPass text labels with
  | some v => some v
  | none => dateSecondPass text labels

def addr_p1 : RE :=
  cat [altl [sL "住居地", sL "住所", sL "ADDRESS"], wsStar, colonWSStar,
       .group 1 (.rep anyC 1 none true),
       .look (cat [wsStar, altl [residence_card_pattern, sL "在留カード番号",
                                 sL "RESIDENCE CARD NUMBER", sL "在留", sL "就労",
                                 .eol, sL "\n\n"]])]

/-- `re.sub` of the residence-card-number pattern by the empty string:
delete every (leftmost, non-overlapping) 2-letter/8-digit/2-letter run. -/
def removeCardNums : Str → Str
  | a1 :: a2 :: d1 :: d2 :: d3 :: d4 :: d5 :: d6 :: d7 :: d8 :: b1 :: b2 :: rest =>
    if isUpperAZ a1 && isUpperAZ a2 && isDigitB d1 && isDigitB d2 && isDigitB d3 &&
       isDigitB d4 && isDigitB d5 && isDigitB d6 && isDigitB d7 && isDigitB d8 &&
       isUpperAZ b1 && isUpperAZ b2
    then removeCardNums rest
    else a1 :: removeCardNums (a2 :: d1 :: d2 :: d3 :: d4 :: d5 :: d6 :: d7 :: d8 :: b1 :: b2 :: rest)
  | c :: rest => c :: removeCardNums rest
  | [] => []

def extract_address (text : Str) : Option Str :=
  match reSearch true false addr_p1 text with
  | some m =>
    match grp text m.2.2 1 with
    | some raw =>
      let a1 := collapseRuns isWS ' ' (pyStrip raw)
      let address := pyStrip (removeCardNums a1)
      if 5 < address.length then some address else none
    | none => none
  | none => none

/-! ### My Number card extractors -/

def jmn_name_core : RE :=
  cat [.rep jpCls 1 none false, .rep wsOrIdeo 1 none false, .rep jpCls 1 none false]

def jmn_p1 : RE := cat [sL "氏名", wsStar, sL "\n", wsStar, .group 1 jmn_name_core]

def jmn_p2 : RE := cat [sL "氏名", wsStar, colonWSStar, .group 1 jmn_name_core]

/-- `[一-龯぀-ゟ]` -/
def cjkHira (c : Char) : Bool := isCJKClass c || isHira c

def jmn_p3 : RE :=
  cat [altl [.bol, sL "\n"],
       .group 1 (cat [.rep isCJKClass 1 (some 4) false, .rep wsOrIdeo 1 none false,
                      .rep cjkHira 1 none false]),
       .look (cat [wsStar, sL "\n"])]

def jmn_exclude : List Str := (["生年", "月日", "有効", "番号", "住所"]).map String.toList

/-- Cascade of `_extract_japanese_name_mynumber` (`re.MULTILINE`). -/
def jmnGo (text : Str) : List RE → Option Str
  | [] => none
  | p :: rest =>
    match reSearch false true p text with
    | some m =>
      match grp text m.2.2 1 with
      | some raw =>
        let name := pyStrip raw
        if 2 ≤ name.length ∧ (jmn_exclude.any fun ex => pyContains ex name) = false
        then some name
        else jmnGo text rest
      | none => jmnGo text rest
    | none => jmnGo text rest

def extract_japanese_name_mynumber (text : Str) : Option Str :=
  jmnGo text [jmn_p1, jmn_p2, jmn_p3]

def mn_label : RE := altl [sL "個人番号", sL "マイナンバー"]

def mn_p1 : RE :=
  cat [mn_label, wsStar, colonWSStar, .group 1 (.rep isDigitB 12 (some 12) false)]

def mn_p2 : RE :=
  cat [mn_label, wsStar, colonWSStar,
       .group 1 (cat [.rep isDigitB 4 (some 4) false, wsStar,
                      .rep isDigitB 4 (some 4) false, wsStar,
                      .rep isDigitB 4 (some 4) false])]

/-- Label-anchored cascade of `_extract_mynumber`; a hit is returned with
`re.sub(r'\s', '', ·)` applied. -/
def mnGo (text : Str) : List RE → Option Str
  | [] => none
  | p :: rest =>
    match reSearch false false p text with
    | some m =>
      match grp text m.2.2 1 with
      | some g1 => some (g1.filter fun c => !isWS c)
      | none => mnGo text rest
    | none => mnGo text rest

def extract_mynumber (text : Str) : Option Str :=
  match mnGo text [mn_p1, mn_p2] with
  | some v => some v
  | none =>
    match reSearch false false mynumber_pattern text with
    | some m => some (mSlice text m)
    | none => none

def amn_p1 : RE :=
  cat [sL "住所", wsStar, colonWSStar, .group 1 (.rep anyC 1 none true),
       .look (cat [wsStar, altl [sL "生年", sL "氏名", sL "有効", .eol]])]

/-- `[都道府県]` -/
def todoufuken (c : Char) : Bool := c == '都' || c == '道' || c == '府' || c == '県'

/-- `[一-龯\d\-]` -/
def cjkDigitDash (c : Char) : Bool := isCJKClass c || isDigitB c || c == '-'

def amn_p2 : RE :=
  .group 1 (cat [.rep isCJKClass 1 none false, .cls todoufuken,
                 .rep cjkDigitDash 1 none false])

/-- Cascade of `_extract_address_mynumber` (`re.DOTALL` is reflected in the
`anyC` class of `amn_p1`). -/
def amnGo (text : Str) : List RE → Option Str
  | [] => none
  | p :: rest =>
    match reSearch false false p text with
    | some m =>
      match grp text m.2.2 1 with
      | some raw =>
        let address := collapseRuns isWS ' ' (pyStrip raw)
        if 5 < address.length then some address else amnGo text rest
      | none => amnGo text rest
    | none => amnGo text rest

def extract_address_mynumber (text : Str) : Option Str := amnGo text [amn_p1, amn_p2]

/-! ### Driving-license extractors -/

/-- `[一-龯぀-ゟ゠-ヿ\s]` -/
def jpWS (c : Char) : Bool := jpCls c || isWS c

def jlic_p1 : RE :=
  cat [sL "氏名", wsStar, colonWSStar, .group 1 (.rep jpWS 1 none true),
       .look (cat [wsStar, altl [sL "生年", sL "昭和", sL "平成", sL "令和", .cls isDigitB]])]

def extract_japanese_name_license (text : Str) : Option Str :=
  match reSearch false false jlic_p1 text with
  | some m =>
    match grp text m.2.2 1 with
    | some raw =>
      let name := pyStrip raw
      if 2 ≤ name.length then some name else none
    | none => none
  | none => none

/-- `[\d\-]` -/
def digitDash (c : Char) : Bool := isDigitB c || c == '-'

def lic_p1 : RE :=
  cat [altl [sL "免許証番号", sL "番号"], wsStar, colonWSStar,
       .group 1 (cat [.cls isDigitB, .rep digitDash 1 none false])]

def lic_p2 : RE :=
  cat [sL "第", wsStar, .group 1 (.rep isDigitB 12 (some 12) false), wsStar, sL "号"]

/-- Label cascade of `_extract_license_number`: a hit is returned stripped. -/
def licGo (text : Str) : List RE → Option Str
  | [] => none
  | p :: rest =>
    match reSearch false false p text with
    | some m =>
      match grp text m.2.2 1 with
      | some g1 => some (pyStrip g1)
      | none => licGo text rest
    | none => licGo text rest

def extract_license_number (text : Str) : Option Str :=
  match licGo text [lic_p1, lic_p2] with
  | some v => some v
  | none =>
    match reSearch false false license_number_pattern text with
    | some m => some (mSlice text m)
    | none => none

def alic_p1 : RE :=
  cat [sL "住所", wsStar, colonWSStar, .group 1 (.rep anyC 1 none true),
       .look (cat [wsStar, altl [sL "氏名", sL "生年", sL "交付", .eol, sL "\n"]])]

def extract_address_license (text : Str) : Option Str :=
  match reSearch false false alic_p1 text with
  | some m =>
    match grp text m.2.2 1 with
    | some raw =>
      let address := collapseRuns isWS ' ' (pyStrip raw)
      if 5 < address.length then some address else none
    | none => none
  | none => none

def category_list : List Str :=
  (["大型", "中型", "準中型", "普通", "大特", "大自二", "普自二", "小特", "原付",
    "け引", "大二", "中二", "普二"]).map String.toList

def extract_license_categories (text : Str) : Option (List Str) :=
  let categories := category_list.filter fun cat => pyContains cat text
  if categories.isEmpty then none else some categories

def known_conditions : List Str :=
  (["眼鏡等", "AT限定", "補聴器", "大型車(8t)に限る", "中型車(8t)に限る",
    "準中型車(5t)に限る"]).map String.toList

def cond_p1 : RE :=
  cat [altl [sL "免許の条件", cat [sL "条件", altl [sL "等", .eps]]], colonWSStar,
       .group 1 (.rep notNL 1 none true),
       .look (cat [wsStar, altl [.eol, sL "\n", sL "種類", sL "交付", sL "備考"]])]

def cond_badlist : List Str := (["なし", "等"]).map String.toList

def extract_license_conditions (text : Str) : Option Str :=
  match firstContained known_conditions text with
  | some c => some c
  | none =>
    match reSearch false false cond_p1 text with
    | some m =>
      match grp text m.2.2 1 with
      | some raw =>
        let conditions := pyStrip raw
        if conditions.isEmpty = false ∧ cond_badlist.contains conditions = false
        then some conditions else none
      | none => none
    | none => none

def auth_p1 : RE := .group 1 (cat [.rep isCJKClass 1 none false, sL "公安委員会"])

def extract_issuing_authority (text : Str) : Option Str :=
  match reSearch false false auth_p1 text with
  | some m => (grp text m.2.2 1).map pyStrip
  | none => none

/-! ### Gender (shared extractor) -/

def gender_vocab : RE :=
  altl [sL "男", sL "女", sL "男性", sL "女性", sL "M", sL "F", sL "Male", sL "Female"]

def gender_p1 : RE :=
  cat [altl [sL "性別", sL "SEX", sL "GENDER"], wsStar, colonWSStar, .group 1 gender_vocab]

def gender_p2 : RE :=
  cat [altl [.bol, .cls isWS], .group 1 (altl [sL "男", sL "女"]), altl [.cls isWS, .eol]]

/-- Cascade of `_extract_gender` (`re.IGNORECASE`); a hit is mapped through
`GENDER_MAP.get(raw, raw)`. -/
def genderGo (text : Str) : List RE → Option Str
  | [] => none
  | p :: rest =>
    match reSearch true false p text with
    | some m =>
      match grp text m.2.2 1 with
      | some g1 =>
        let raw := pyStrip g1
        some (((GENDER_MAP.find? fun e => e.1 == raw).map (·.2)).getD raw)
      | none => genderGo text rest
    | none => genderGo text rest

def extract_gender (text : Str) : Option Str := genderGo text [gender_p1, gender_p2]

/-! ### Record assembly, classification, dispatch -/

def kDocType : Str := "document_type".toList

def extract_residence_card (raw_text : Str) : Rec :=
  let text := normalize_text raw_text
  [(kDocType, JVal.str DOC_RESIDENCE_CARD),
   ("full_name".toList, toJ (extract_romaji_name text)),
   ("full_name_japanese".toList, toJ (extract_japanese_name text)),
   ("date_of_birth".toList, toJ (extract_date_field text ["生年月日".toList, "DATE OF BIRTH".toList])),
   ("nationality".toList, toJ (extract_nationality text)),
   ("region".toList, toJ (extract_region text)),
   ("gender".toList, toJ (extract_gender text)),
   ("status_of_residence".toList, toJ (extract_residence_status text)),
   ("period_of_stay".toList, toJ (extract_period_of_stay text)),
   ("work_restriction".toList, toJ (extract_work_restriction text)),
   ("card_number".toList, toJ (extract_residence_card_number text)),
   ("issue_date".toList, toJ (extract_date_field text ["交付年月日".toList, "DATE OF ISSUE".toList])),
   ("expiry_date".toList, toJ (extract_date_field text ["有効期限".toList, "DATE OF EXPIRY".toList, "まで有効".toList])),
   ("address".toList, toJ (extract_address text))]

def extract_mynumber_card (raw_text : Str) : Rec :=
  let text := normalize_text raw_text
  [(kDocType, JVal.str DOC_MYNUMBER_CARD),
   ("full_name".toList, toJ (extract_japanese_name_mynumber text)),
   ("full_name_romaji".toList, toJ (extract_romaji_name text)),
   ("date_of_birth".toList, toJ (extract_date_field text ["生年月日".toList])),
   ("gender".toList, toJ (extract_gender text)),
   ("address".toList, toJ (extract_address_mynumber text)),
   ("my_number".toList, toJ (extract_mynumber text)),
   ("issue_date".toList, toJ (extract_date_field text ["発行".toList])),
   ("expiry_date".toList, toJ (extract_date_field text ["有効期限".toList, "まで有効".toList])),
   ("digital_cert_expiry".toList, toJ (extract_date_field text ["署名用電子証明書".toList, "電子証明書の有効期限".toList]))]

def extract_driving_license (raw_text : Str) : Rec :=
  let text := normalize_text raw_text
  [(kDocType, JVal.str DOC_DRIVING_LICENSE),
   ("full_name".toList, toJ (extract_japanese_name_license text)),
   ("date_of_birth".toList, toJ (extract_date_field text ["生年月日".toList])),
   ("address".toList, toJ (extract_address_license text)),
   ("license_number".toList, toJ (extract_license_number text)),
   ("issue_date".toList, toJ (extract_date_field text ["交付".toList, "交付年月日".toList])),
   ("expiry_date".toList, toJ (extract_date_field text ["有効期限".toList, "まで有効".toList])),
   ("license_categories".toList, toJL (extract_license_categories text)),
   ("conditions".toList, toJ (extract_license_conditions text)),
   ("issuing_authority".toList, toJ (extract_issuing_authority text))]

def residence_keywords : List Str :=
  (["在留カード", "RESIDENCE CARD", "在留資格", "在留期間", "就労制限",
    "WORK RESTRICTION", "国籍・地域", "NATIONALITY"]).map String.toList

def mynumber_keywords : List Str :=
  (["個人番号", "マイナンバー", "INDIVIDUAL NUMBER", "個人番号カード",
    "署名用電子証明書", "利用者証明用電子証明書"]).map String.toList

def driving_keywords : List Str :=
  (["運転免許証", "免許証番号", "免許の条件", "公安委員会", "普通", "中型",
    "大型", "二輪", "原付"]).map String.toList

/-- Keyword loop for residence and My Number keywords:
`if kw in raw_text or kw.lower() in text_lower: score += 2`. -/
def kwScore (kws : List Str) (raw lower : Str) : Nat :=
  kws.foldl (fun acc kw =>
    if pyContains kw raw || pyContains (kw.map pyLower) lower then acc + 2 else acc) 0

/-- Keyword loop for driving keywords: `if kw in raw_text: score += 2`. -/
def rawKwScore (kws : List Str) (raw : Str) : Nat :=
  kws.foldl (fun acc kw => if pyContains kw raw then acc + 2 else acc) 0

/-- Python's `max(scores, key=scores.get)` over the dict with insertion
order `RESIDENCE_CARD, MYNUMBER_CARD, DRIVING_LICENSE`: the first key with
the maximal score wins. -/
def argmax3 (r m d : Nat) : Str :=
  if m > r then (if d > m then DOC_DRIVING_LICENSE else DOC_MYNUMBER_CARD)
  else (if d > r then DOC_DRIVING_LICENSE else DOC_RESIDENCE_CARD)

/-- `detect_document_type`.  The source assigns
`text = self.normalize_text(raw_text).upper()` but never uses it: every
keyword test and the card-number search run on the raw text (plus its
lower-cased copy), so that dead assignment is omitted here. -/
def detect_document_type (raw : Str) : Str :=
  if raw.isEmpty then DOC_RESIDENCE_CARD
  else
    let text_lower := raw.map pyLower
    let rScore := kwScore residence_keywords raw text_lower +
      (if (reSearch false false residence_card_pattern raw).isSome then 5 else 0)
    let mScore := kwScore mynumber_keywords raw text_lower
    let dScore := rawKwScore driving_keywords raw
    argmax3 rScore mScore dScore

/-- `_empty_result`. -/
def emptyResult (t : Str) : Rec :=
  if t == DOC_RESIDENCE_CARD then
    (kDocType, JVal.str t) :: RESIDENCE_CARD_FIELDS.map (fun f => (f, JVal.null))
  else if t == DOC_MYNUMBER_CARD then
    (kDocType, JVal.str t) :: MYNUMBER_CARD_FIELDS.map (fun f => (f, JVal.null))
  else if t == DOC_DRIVING_LICENSE then
    (kDocType, JVal.str t) :: DRIVING_LICENSE_FIELDS.map (fun f => (f, JVal.null))
  else [(kDocType, JVal.str t)]

/-- `extract`.  `document_type` is optional; Python's falsy test treats
both `None` and the empty string as unset. -/
def extract (raw : Str) (dt : Option Str) : Rec :=
  if raw.isEmpty then
    emptyResult (match dt with
      | some d => if d.isEmpty then DOC_RESIDENCE_CARD else d
      | none => DOC_RESIDENCE_CARD)
  else
    let t := match dt with
      | some d => if d.isEmpty then detect_document_type raw else d
      | none => detect_document_type raw
    if t == DOC_RESIDENCE_CARD then extract_residence_card raw
    else if t == DOC_MYNUMBER_CARD then extract_mynumber_card raw
    else if t == DOC_DRIVING_LICENSE then extract_driving_license raw
    else emptyResult t

/-! ### Auxiliary predicates and concrete inputs used by the claims -/

/-- Schema of a known document type (mirrors `_empty_result`'s dispatch). -/
def fields_for_type (t : Str) : List Str :=
  if t == DOC_RESIDENCE_CARD then RESIDENCE_CARD_FIELDS
  else if t == DOC_MYNUMBER_CARD then MYNUMBER_CARD_FIELDS
  else if t == DOC_DRIVING_LICENSE then DRIVING_LICENSE_FIELDS
  else []

/-- Modelled from the spec's words: the Residence Card field list as the
spec enumerates it, with a key `full_name_native` (the source instead uses
`full_name_japanese`).  Used only to compare spec against code. -/
def spec_residence_card_fields : List Str :=
  (["full_name", "full_name_native", "date_of_birth", "nationality", "region",
    "gender", "status_of_residence", "period_of_stay", "work_restriction",
    "card_number", "issue_date", "expiry_date", "address"]).map String.toList

/-- Whether the head of a string satisfies `p` (false for the empty string). -/
def headP (p : Char → Bool) : Str → Bool
  | [] => false
  | c :: _ => p c

/-- No two adjacent characters both satisfy `p`. -/
def noAdj (p : Char → Bool) : Str → Bool
  | [] => true
  | c :: rest => !(p c && headP p rest) && noAdj p rest

/-- The Residence Card scenario input of the spec (lines joined by newlines;
the nationality line carries a double space). -/
def c2Input : Str := "NAME\nJOHN SMITH\nAB12345678CD\n国籍・地域  中国".toList

/-- Structural card-number shape plus three My Number keywords and no
Residence Card keyword. -/
def c5cxInput : Str := "個人番号 マイナンバー INDIVIDUAL NUMBER AB12345678CD".toList

/-- A gender token embedded between non-space native characters. -/
def c6cxInput : Str := "山男谷".toList

/-- The My Number scenario input: label immediately followed by spaced digits. -/
def c7Input : Str := "個人番号1234 5678 9012".toList

/-- A bare 12-digit number before a labeled one. -/
def c7PriorityInput : Str := "999988887777 個人番号1234 5678 9012".toList

/-- A bare 12-digit number with no My Number label. -/
def c7FallbackInput : Str := "番号は 999988887777".toList

/-- A driving-license keyword followed by a card number in full-width glyphs. -/
def c9Input : Str := "普通ＡＢ１２３４５６７８ＣＤ".toList

/-! ## Helper lemmas -/

theorem keys_residence (raw : Str) :
    listKeys (extract_residence_card raw) = kDocType :: RESIDENCE_CARD_FIELDS := rfl

theorem keys_mynumber (raw : Str) :
    listKeys (extract_mynumber_card raw) = kDocType :: MYNUMBER_CARD_FIELDS := rfl

theorem keys_driving (raw : Str) :
    listKeys (extract_driving_license raw) = kDocType :: DRIVING_LICENSE_FIELDS := rfl

theorem beq_rc_rc : (DOC_RESIDENCE_CARD == DOC_RESIDENCE_CARD) = true := by decide

theorem beq_mn_mn : (DOC_MYNUMBER_CARD == DOC_MYNUMBER_CARD) = true := by decide

theorem beq_dl_dl : (DOC_DRIVING_LICENSE == DOC_DRIVING_LICENSE) = true := by decide

theorem beq_mn_rc : (DOC_MYNUMBER_CARD == DOC_RESIDENCE_CARD) = false := by decide

theorem beq_dl_rc : (DOC_DRIVING_LICENSE == DOC_RESIDENCE_CARD) = false := by decide

theorem beq_dl_mn : (DOC_DRIVING_LICENSE == DOC_MYNUMBER_CARD) = false := by decide

/-- Python's `max` over the three-entry score dict always yields one of the
three declared document types. -/
theorem argmax3_mem (r m d : Nat) :
    argmax3 r m d = DOC_RESIDENCE_CARD ∨ argmax3 r m d = DOC_MYNUMBER_CARD ∨
      argmax3 r m d = DOC_DRIVING_LICENSE := by
  unfold argmax3
  split
  · split
    · exact Or.inr (Or.inr rfl)
    · exact Or.inr (Or.inl rfl)
  · split
    · exact Or.inr (Or.inr rfl)
    · exact Or.inl rfl

/-- The classifier always returns one of the three known document types. -/
theorem detect_mem (s : Str) :
    detect_document_type s = DOC_RESIDENCE_CARD ∨
      detect_document_type s = DOC_MYNUMBER_CARD ∨
      detect_document_type s = DOC_DRIVING_LICENSE := by
  unfold detect_document_type
  split
  · exact Or.inl rfl
  · exact argmax3_mem _ _ _

/-- `extract` with no explicit type on nonempty input routes on the
detected type. -/
theorem extract_none_route (c : Char) (t : Str) :
    extract (c :: t) none =
      (if detect_document_type (c :: t) == DOC_RESIDENCE_CARD then
        extract_residence_card (c :: t)
      else if detect_document_type (c :: t) == DOC_MYNUMBER_CARD then
        extract_mynumber_card (c :: t)
      else if detect_document_type (c :: t) == DOC_DRIVING_LICENSE then
        extract_driving_license (c :: t)
      else emptyResult (detect_document_type (c :: t))) := rfl

/-- A scoring fold adds nothing when every condition is false. -/
theorem score_foldl_const (cond : Str → Bool) (kws : List Str)
    (h : ∀ kw ∈ kws, cond kw = false) :
    ∀ acc : Nat, kws.foldl (fun a kw => if cond kw then a + 2 else a) acc = acc := by
  induction kws with
  | nil => intro acc; rfl
  | cons k t ih =>
    intro acc
    have hk : cond k = false := h k (List.mem_cons_self k t)
    rw [List.foldl_cons]
    simp only [hk, Bool.false_eq_true, if_false]
    exact ih (fun kw hm => h kw (List.mem_cons_of_mem k hm)) acc

/-- The residence/My Number keyword loop scores zero when no keyword occurs
(neither verbatim nor lower-cased). -/
theorem kwScore_zero (kws : List Str) (raw lower : Str)
    (h : (kws.all fun kw => !(pyContains kw raw || pyContains (kw.map pyLower) lower)) = true) :
    kwScore kws raw lower = 0 := by
  unfold kwScore
  refine score_foldl_const _ kws ?_ 0
  intro kw hm
  have := List.all_eq_true.mp h kw hm
  simpa using this

/-- The driving keyword loop scores zero when no keyword occurs. -/
theorem rawKwScore_zero (kws : List Str) (raw : Str)
    (h : (kws.all fun kw => !pyContains kw raw) = true) :
    rawKwScore kws raw = 0 := by
  unfold rawKwScore
  refine score_foldl_const _ kws ?_ 0
  intro kw hm
  have := List.all_eq_true.mp h kw hm
  simpa using this

/-- A filter over a list is empty exactly when no element passes. -/
theorem filter_isEmpty_eq_all (cond : Str → Bool) (l : List Str) :
    (l.filter cond).isEmpty = l.all fun c => !cond c := by
  induction l with
  | nil => rfl
  | cons a t ih =>
    by_cases h : cond a = true <;>
      simp [List.filter_cons, List.all_cons, h, ih]

theorem collapseRuns_cons2_pp {p : Char → Bool} {r0 c d : Char} {rest : Str}
    (hc : p c = true) (hd : p d = true) :
    collapseRuns p r0 (c :: d :: rest) = collapseRuns p r0 (d :: rest) := by
  simp [collapseRuns, hc, hd]

theorem collapseRuns_cons2_pn {p : Char → Bool} {r0 c d : Char} {rest : Str}
    (hc : p c = true) (hd : ¬p d = true) :
    collapseRuns p r0 (c :: d :: rest) = r0 :: collapseRuns p r0 (d :: rest) := by
  simp [collapseRuns, hc, hd]

theorem collapseRuns_cons2_n {p : Char → Bool} {r0 c d : Char} {rest : Str}
    (hc : ¬p c = true) :
    collapseRuns p r0 (c :: d :: rest) = c :: collapseRuns p r0 (d :: rest) := by
  simp [collapseRuns, hc]

theorem collapseRuns_one_p {p : Char → Bool} {r0 c : Char} (hc : p c = true) :
    collapseRuns p r0 [c] = [r0] := by
  simp [collapseRuns, hc]

theorem collapseRuns_one_n {p : Char → Bool} {r0 c : Char} (hc : ¬p c = true) :
    collapseRuns p r0 [c] = [c] := by
  simp [collapseRuns, hc]

theorem mem_collapseRuns (p : Char → Bool) (r0 : Char) (l : Str) :
    ∀ x ∈ collapseRuns p r0 l, x ∈ l ∨ x = r0 := by
  induction l using collapseRuns.induct p r0 with
  | case1 => intro x hx; simp [collapseRuns] at hx
  | case2 c hc => intro x hx; rw [collapseRuns_one_p hc] at hx; simp at hx; exact Or.inr hx
  | case3 c hc => intro x hx; rw [collapseRuns_one_n hc] at hx; exact Or.inl hx
  | case4 c d rest hc hd ih =>
    intro x hx
    rw [collapseRuns_cons2_pp hc hd] at hx
    rcases ih x hx with h | h
    · exact Or.inl (List.mem_cons_of_mem c h)
    · exact Or.inr h
  | case5 c d rest hc hd ih =>
    intro x hx
    rw [collapseRuns_cons2_pn hc hd] at hx
    rcases List.mem_cons.mp hx with h | h
    · exact Or.inr h
    · rcases ih x h with h2 | h2
      · exact Or.inl (List.mem_cons_of_mem c h2)
      · exact Or.inr h2
  | case6 c d rest hc ih =>
    intro x hx
    rw [collapseRuns_cons2_n hc] at hx
    rcases List.mem_cons.mp hx with h | h
    · exact Or.inl (by simp [h])
    · rcases ih x h with h2 | h2
      · exact Or.inl (List.mem_cons_of_mem c h2)
      · exact Or.inr h2

theorem collapseRuns_only_r0 (p : Char → Bool) (r0 : Char) (l : Str) :
    ∀ x ∈ collapseRuns p r0 l, p x = true → x = r0 := by
  induction l using collapseRuns.induct p r0 with
  | case1 => intro x hx; simp [collapseRuns] at hx
  | case2 c hc => intro x hx _; rw [collapseRuns_one_p hc] at hx; simpa using hx
  | case3 c hc => intro x hx hpx; rw [collapseRuns_one_n hc] at hx; simp at hx; subst hx; exact absurd hpx hc
  | case4 c d rest hc hd ih =>
    intro x hx hpx
    rw [collapseRuns_cons2_pp hc hd] at hx
    exact ih x hx hpx
  | case5 c d rest hc hd ih =>
    intro x hx hpx
    rw [collapseRuns_cons2_pn hc hd] at hx
    rcases List.mem_cons.mp hx with h | h
    · exact h
    · exact ih x h hpx
  | case6 c d rest hc ih =>
    intro x hx hpx
    rw [collapseRuns_cons2_n hc] at hx
    rcases List.mem_cons.mp hx with h | h
    · subst h; exact absurd hpx hc
    · exact ih x h hpx

theorem headP_collapseRuns_self {p : Char → Bool} {r0 : Char} (hp : p r0 = true) (l : Str) :
    headP p (collapseRuns p r0 l) = headP p l := by
  induction l using collapseRuns.induct p r0 with
  | case1 => rfl
  | case2 c hc => rw [collapseRuns_one_p hc]; simp [headP, hp, hc]
  | case3 c hc => rw [collapseRuns_one_n hc]
  | case4 c d rest hc hd ih =>
    rw [collapseRuns_cons2_pp hc hd, ih]
    simp [headP, hc, hd]
  | case5 c d rest hc hd ih =>
    rw [collapseRuns_cons2_pn hc hd]
    simp [headP, hp, hc]
  | case6 c d rest hc ih => rw [collapseRuns_cons2_n hc]; rfl

theorem noAdj_collapseRuns {p : Char → Bool} {r0 : Char} (hp : p r0 = true) (l : Str) :
    noAdj p (collapseRuns p r0 l) = true := by
  induction l using collapseRuns.induct p r0 with
  | case1 => rfl
  | case2 c hc => rw [collapseRuns_one_p hc]; simp [noAdj, headP]
  | case3 c hc => rw [collapseRuns_one_n hc]; simp [noAdj, headP]
  | case4 c d rest hc hd ih => rw [collapseRuns_cons2_pp hc hd]; exact ih
  | case5 c d rest hc hd ih =>
    rw [collapseRuns_cons2_pn hc hd]
    simp only [noAdj, ih, Bool.and_true]
    rw [headP_collapseRuns_self hp]
    simp [headP, hd]
  | case6 c d rest hc ih =>
    simp only [collapseRuns_cons2_n hc, noAdj, ih, Bool.and_true]
    simp [hc]

theorem headP_collapseRuns_other {p q : Char → Bool} {r0 : Char}
    (hq0 : q r0 = false) (hpq : ∀ c, p c = true → q c = false) (l : Str) :
    headP q (collapseRuns p r0 l) = headP q l := by
  induction l using collapseRuns.induct p r0 with
  | case1 => rfl
  | case2 c hc => rw [collapseRuns_one_p hc]; simp [headP, hq0, hpq c hc]
  | case3 c hc => rw [collapseRuns_one_n hc]
  | case4 c d rest hc hd ih =>
    rw [collapseRuns_cons2_pp hc hd, ih]
    simp [headP, hpq c hc, hpq d hd]
  | case5 c d rest hc hd ih =>
    rw [collapseRuns_cons2_pn hc hd]
    simp [headP, hq0, hpq c hc]
  | case6 c d rest hc ih => rw [collapseRuns_cons2_n hc]; rfl

theorem noAdj_tail {q : Char → Bool} {c : Char} {rest : Str}
    (h : noAdj q (c :: rest) = true) : noAdj q rest = true := by
  simp only [noAdj, Bool.and_eq_true] at h
  exact h.2

theorem noAdj_collapseRuns_pres {p q : Char → Bool} {r0 : Char}
    (hq0 : q r0 = false) (hpq : ∀ c, p c = true → q c = false) (l : Str)
    (h : noAdj q l = true) : noAdj q (collapseRuns p r0 l) = true := by
  induction l using collapseRuns.induct p r0 with
  | case1 => rfl
  | case2 c hc => rw [collapseRuns_one_p hc]; simp [noAdj, headP]
  | case3 c hc => rw [collapseRuns_one_n hc]; simp [noAdj, headP]
  | case4 c d rest hc hd ih => rw [collapseRuns_cons2_pp hc hd]; exact ih (noAdj_tail h)
  | case5 c d rest hc hd ih =>
    rw [collapseRuns_cons2_pn hc hd]
    simp only [noAdj, Bool.and_eq_true]
    refine ⟨?_, by rw [ih (noAdj_tail h)]⟩
    simp [hq0]
  | case6 c d rest hc ih =>
    rw [collapseRuns_cons2_n hc]
    simp only [noAdj, Bool.and_eq_true]
    refine ⟨?_, by rw [ih (noAdj_tail h)]⟩
    rw [headP_collapseRuns_other hq0 hpq]
    simp only [noAdj, Bool.and_eq_true] at h
    simpa using h.1

theorem collapseRuns_fixed {p : Char → Bool} {r0 : Char} (l : Str)
    (hadj : noAdj p l = true) (hchar : ∀ x ∈ l, p x = true → x = r0) :
    collapseRuns p r0 l = l := by
  induction l using collapseRuns.induct p r0 with
  | case1 => rfl
  | case2 c hc => rw [collapseRuns_one_p hc, hchar c (by simp) hc]
  | case3 c hc => rw [collapseRuns_one_n hc]
  | case4 c d rest hc hd ih =>
    exfalso
    simp only [noAdj, Bool.and_eq_true] at hadj
    have := hadj.1
    simp [hc, headP, hd] at this
  | case5 c d rest hc hd ih =>
    rw [collapseRuns_cons2_pn hc hd,
        ih (noAdj_tail hadj) (fun x hx hpx => hchar x (List.mem_cons_of_mem c hx) hpx),
        hchar c (by simp) hc]
  | case6 c d rest hc ih =>
    rw [collapseRuns_cons2_n hc,
        ih (noAdj_tail hadj) (fun x hx hpx => hchar x (List.mem_cons_of_mem c hx) hpx)]

theorem mem_dropWhile (w : Char → Bool) (l : Str) : ∀ x ∈ l.dropWhile w, x ∈ l := by
  induction l with
  | nil => simp
  | cons c rest ih =>
    intro x hx
    by_cases h : w c = true
    · rw [List.dropWhile_cons_of_pos h] at hx
      exact List.mem_cons_of_mem c (ih x hx)
    · rw [List.dropWhile_cons_of_neg h] at hx
      exact hx

theorem noAdj_dropWhile (q w : Char → Bool) (l : Str) (h : noAdj q l = true) :
    noAdj q (l.dropWhile w) = true := by
  induction l with
  | nil => exact h
  | cons c rest ih =>
    by_cases hw : w c = true
    · rw [List.dropWhile_cons_of_pos hw]
      exact ih (noAdj_tail h)
    · rw [List.dropWhile_cons_of_neg hw]
      exact h

theorem dropTrailing_cons_ne {p : Char → Bool} {c : Char} {rest : Str}
    (h : ¬dropTrailing p rest = []) :
    dropTrailing p (c :: rest) = c :: dropTrailing p rest := by
  cases hdt : dropTrailing p rest with
  | nil => exact absurd hdt h
  | cons a b => simp [dropTrailing, hdt]

theorem mem_dropTrailing (p : Char → Bool) (l : Str) : ∀ x ∈ dropTrailing p l, x ∈ l := by
  induction l using dropTrailing.induct p with
  | case1 => intro x hx; simp [dropTrailing] at hx
  | case2 c rest hdt hc ih =>
    intro x hx
    simp [dropTrailing, hdt, hc] at hx
  | case3 c rest hdt hc ih =>
    intro x hx
    simp [dropTrailing, hdt, hc] at hx
    simp [hx]
  | case4 c rest hdt ih =>
    intro x hx
    rw [dropTrailing_cons_ne hdt] at hx
    rcases List.mem_cons.mp hx with h | h
    · simp [h]
    · exact List.mem_cons_of_mem c (ih x h)

theorem head_dropTrailing (p q : Char → Bool) (l : Str) (h : ¬dropTrailing p l = []) :
    headP q (dropTrailing p l) = headP q l := by
  cases l with
  | nil => exact absurd rfl h
  | cons c rest =>
    cases hdt : dropTrailing p rest with
    | nil =>
      by_cases hc : p c = true
      · exfalso; apply h; simp [dropTrailing, hdt, hc]
      · simp [dropTrailing, hdt, hc, headP]
    | cons a b => rw [dropTrailing_cons_ne (by rw [hdt]; exact List.cons_ne_nil a b)]; rfl

theorem noAdj_dropTrailing (p q : Char → Bool) (l : Str) (h : noAdj q l = true) :
    noAdj q (dropTrailing p l) = true := by
  induction l using dropTrailing.induct p with
  | case1 => exact h
  | case2 c rest hdt hc ih => simp [dropTrailing, hdt, hc, noAdj]
  | case3 c rest hdt hc ih => simp [dropTrailing, hdt, hc, noAdj, headP]
  | case4 c rest hdt ih =>
    rw [dropTrailing_cons_ne hdt]
    simp only [noAdj, Bool.and_eq_true]
    constructor
    · rw [head_dropTrailing p q rest hdt]
      simp only [noAdj, Bool.and_eq_true] at h
      simpa using h.1
    · exact ih (noAdj_tail h)

theorem dropTrailing_idem (p : Char → Bool) (l : Str) :
    dropTrailing p (dropTrailing p l) = dropTrailing p l := by
  induction l using dropTrailing.induct p with
  | case1 => rfl
  | case2 c rest hdt hc ih => simp [dropTrailing, hdt, hc]
  | case3 c rest hdt hc ih => simp [dropTrailing, hdt, hc]
  | case4 c rest hdt ih =>
    rw [dropTrailing_cons_ne hdt, dropTrailing_cons_ne (by rw [ih]; exact hdt), ih]

theorem headP_dropWhile_self (w : Char → Bool) (l : Str) :
    headP w (l.dropWhile w) = false := by
  induction l with
  | nil => rfl
  | cons c rest ih =>
    by_cases hw : w c = true
    · rw [List.dropWhile_cons_of_pos hw]; exact ih
    · rw [List.dropWhile_cons_of_neg hw]
      simpa [headP] using hw

theorem dropWhile_of_headP_false (w : Char → Bool) (l : Str) (h : headP w l = false) :
    l.dropWhile w = l := by
  cases l with
  | nil => rfl
  | cons c rest =>
    rw [List.dropWhile_cons_of_neg]
    simp [headP] at h
    simp [h]

theorem pyStrip_idem (l : Str) : pyStrip (pyStrip l) = pyStrip l := by
  unfold pyStrip
  cases hdt : dropTrailing isWS (l.dropWhile isWS) with
  | nil => rw [List.dropWhile_nil]; rfl
  | cons d t =>
    have hne : ¬dropTrailing isWS (l.dropWhile isWS) = [] := by
      rw [hdt]; exact List.cons_ne_nil d t
    have hh : headP isWS (dropTrailing isWS (l.dropWhile isWS)) = false := by
      rw [head_dropTrailing isWS isWS _ hne]
      exact headP_dropWhile_self isWS l
    rw [← hdt, dropWhile_of_headP_false _ _ hh, dropTrailing_idem]

theorem mem_pyStrip (l : Str) : ∀ x ∈ pyStrip l, x ∈ l := by
  intro x hx
  exact mem_dropWhile _ _ x (mem_dropTrailing _ _ x hx)

theorem noAdj_pyStrip (q : Char → Bool) (l : Str) (h : noAdj q l = true) :
    noAdj q (pyStrip l) = true :=
  noAdj_dropTrailing _ _ _ (noAdj_dropWhile _ _ _ h)

theorem nfkcTable_snd_fixed :
    (nfkcTable.all fun q => (nfkcTable.find? fun e => e.1 == q.2).isNone) = true := by
  decide

theorem nfkcChar_fixed (c d : Char) (hd : d ∈ nfkcChar c) : nfkcChar d = [d] := by
  unfold nfkcChar at hd ⊢
  cases hfind : nfkcTable.find? (fun e => e.1 == c) with
  | none =>
    rw [hfind] at hd
    simp at hd
    subst hd
    rw [hfind]
  | some q =>
    rw [hfind] at hd
    simp at hd
    subst hd
    have hq : q ∈ nfkcTable := List.mem_of_find?_eq_some hfind
    have h2 := List.all_eq_true.mp nfkcTable_snd_fixed q hq
    rw [Option.isNone_iff_eq_none] at h2
    rw [h2]

theorem nfkc_all_fixed (l : Str) : ∀ d ∈ nfkc l, nfkcChar d = [d] := by
  intro d hd
  rw [nfkc, List.mem_flatMap] at hd
  obtain ⟨c, _, hdc⟩ := hd
  exact nfkcChar_fixed c d hdc

theorem nfkc_fixed_of (l : Str) (h : ∀ c ∈ l, nfkcChar c = [c]) : nfkc l = l := by
  induction l with
  | nil => rfl
  | cons c t ih =>
    show nfkcChar c ++ nfkc t = c :: t
    rw [h c (List.mem_cons_self c t), ih fun x hx => h x (List.mem_cons_of_mem c hx)]
    rfl

theorem nl_sp_disj : ∀ c : Char, isNLc c = true → isSpTab c = false := by
  intro c h
  have hc : c = '\n' := by simpa [isNLc] using h
  subst hc
  decide

theorem y_fix_nfkc (s0 : Str) :
    nfkc (pyStrip (collapseRuns isNLc '\n' (collapseRuns isSpTab ' ' (nfkc s0)))) =
      pyStrip (collapseRuns isNLc '\n' (collapseRuns isSpTab ' ' (nfkc s0))) := by
  apply nfkc_fixed_of
  intro x hx
  have hx2 := mem_pyStrip _ x hx
  rcases mem_collapseRuns isNLc '\n' _ x hx2 with hx1 | hxeq
  · rcases mem_collapseRuns isSpTab ' ' _ x hx1 with hx0 | hxeq
    · exact nfkc_all_fixed s0 x hx0
    · subst hxeq; decide
  · subst hxeq; decide

theorem y_fix_sp (s0 : Str) :
    collapseRuns isSpTab ' '
        (pyStrip (collapseRuns isNLc '\n' (collapseRuns isSpTab ' ' (nfkc s0)))) =
      pyStrip (collapseRuns isNLc '\n' (collapseRuns isSpTab ' ' (nfkc s0))) := by
  apply collapseRuns_fixed
  · apply noAdj_pyStrip
    apply noAdj_collapseRuns_pres (by decide) nl_sp_disj
    exact noAdj_collapseRuns (by decide) _
  · intro x hx hpx
    have hx2 := mem_pyStrip _ x hx
    rcases mem_collapseRuns isNLc '\n' _ x hx2 with hx1 | hxeq
    · exact collapseRuns_only_r0 isSpTab ' ' _ x hx1 hpx
    · subst hxeq; exact absurd hpx (by decide)

theorem y_fix_nl (s0 : Str) :
    collapseRuns isNLc '\n'
        (pyStrip (collapseRuns isNLc '\n' (collapseRuns isSpTab ' ' (nfkc s0)))) =
      pyStrip (collapseRuns isNLc '\n' (collapseRuns isSpTab ' ' (nfkc s0))) := by
  apply collapseRuns_fixed
  · exact noAdj_pyStrip _ _ (noAdj_collapseRuns (by decide) _)
  · intro x _ hpx
    simpa [isNLc] using hpx

/-! ## Claim theorems -/

/-- Claim C1, counterexample: the spec's enumerated Residence Card key set
names `full_name_native`, but on input `"X"` with the Residence Card type
the result has no such key (the source key is `full_name_japanese`), so the
claimed key list differs from the produced one. -/
theorem claim1_counterexample :
    lookupF (extract ['X'] (some DOC_RESIDENCE_CARD)) "full_name_native".toList = none
    ∧ listKeys (extract ['X'] (some DOC_RESIDENCE_CARD)) ≠ kDocType :: spec_residence_card_fields := by
  exact ⟨by decide, by decide⟩

/-- Claim C1, amended: for every input string and each of the three known
document types, `extract` with that explicit type returns a record whose
keys are exactly `document_type` followed by that type's field list — for
the Residence Card with the key `full_name_japanese` (not the spec's
`full_name_native`) — never a missing and never an extra key. -/
theorem claim1_amended_schema_keys (raw : Str) :
    listKeys (extract raw (some DOC_RESIDENCE_CARD)) = kDocType :: RESIDENCE_CARD_FIELDS
    ∧ listKeys (extract raw (some DOC_MYNUMBER_CARD)) = kDocType :: MYNUMBER_CARD_FIELDS
    ∧ listKeys (extract raw (some DOC_DRIVING_LICENSE)) = kDocType :: DRIVING_LICENSE_FIELDS := by
  cases raw with
  | nil => exact ⟨by decide, by decide, by decide⟩
  | cons c t => exact ⟨rfl, rfl, rfl⟩

/-- Claim C2: on the input whose lines are `NAME`, `JOHN SMITH`,
`AB12345678CD`, `国籍・地域  中国`, `extract` with no document type returns
document type `RESIDENCE_CARD`, full name `JOHN SMITH`, card number
`AB12345678CD` and nationality `CHINA`. -/
theorem claim2_residence_scenario :
    lookupF (extract c2Input none) kDocType = some (JVal.str DOC_RESIDENCE_CARD)
    ∧ lookupF (extract c2Input none) "full_name".toList = some (JVal.str "JOHN SMITH".toList)
    ∧ lookupF (extract c2Input none) "card_number".toList = some (JVal.str "AB12345678CD".toList)
    ∧ lookupF (extract c2Input none) "nationality".toList = some (JVal.str "CHINA".toList) := by
  decide

/-- Claim C3: `extract` on the empty string with an explicit known type
returns that type's record with every schema field explicitly `None`, and
with no type it returns the empty Residence Card record (the default). -/
theorem claim3_empty_input (T : Str)
    (h : T = DOC_RESIDENCE_CARD ∨ T = DOC_MYNUMBER_CARD ∨ T = DOC_DRIVING_LICENSE) :
    ((fields_for_type T).all fun f => lookupF (extract [] (some T)) f == some JVal.null) = true
    ∧ lookupF (extract [] (some T)) kDocType = some (JVal.str T)
    ∧ extract [] none = emptyResult DOC_RESIDENCE_CARD := by
  rcases h with h | h | h <;> subst h <;> exact ⟨by decide, by decide, by decide⟩

/-- Witness for C3 at the Residence Card type. -/
theorem claim3_empty_input_witness :
    ((fields_for_type DOC_RESIDENCE_CARD).all fun f =>
        lookupF (extract [] (some DOC_RESIDENCE_CARD)) f == some JVal.null) = true
    ∧ lookupF (extract [] (some DOC_RESIDENCE_CARD)) kDocType =
        some (JVal.str DOC_RESIDENCE_CARD)
    ∧ extract [] none = emptyResult DOC_RESIDENCE_CARD :=
  claim3_empty_input DOC_RESIDENCE_CARD (Or.inl rfl)

/-- Claim C5, counterexample: `個人番号 マイナンバー INDIVIDUAL NUMBER
AB12345678CD` contains the 2-letter/8-digit/2-letter shape and no Residence
Card keyword, yet the classifier returns `MYNUMBER_CARD` (three My Number
keywords score 6, beating the structural 5). -/
theorem claim5_counterexample :
    (reSearch false false residence_card_pattern c5cxInput).isSome = true
    ∧ (residence_keywords.all fun kw =>
        !(pyContains kw c5cxInput ||
          pyContains (kw.map pyLower) (c5cxInput.map pyLower))) = true
    ∧ detect_document_type c5cxInput = DOC_MYNUMBER_CARD := by
  exact ⟨by decide, by decide, by decide⟩

/-- Claim C4: the normalizer is idempotent — `normalize_text` applied
twice equals one application, for every input — and normalizing the empty
input yields the empty string. -/
theorem claim4_normalize_idempotent (s : Str) :
    normalize_text (normalize_text s) = normalize_text s ∧ normalize_text [] = [] := by
  refine ⟨?_, rfl⟩
  by_cases hs : s.isEmpty = true
  · have h1 : normalize_text s = [] := by unfold normalize_text; rw [if_pos hs]
    rw [h1]
    rfl
  · have hns : normalize_text s =
        pyStrip (collapseRuns isNLc '\n' (collapseRuns isSpTab ' ' (nfkc s))) := by
      unfold normalize_text; rw [if_neg hs]
    rw [hns]
    by_cases hye :
        (pyStrip (collapseRuns isNLc '\n' (collapseRuns isSpTab ' ' (nfkc s)))).isEmpty = true
    · have h2 : normalize_text
          (pyStrip (collapseRuns isNLc '\n' (collapseRuns isSpTab ' ' (nfkc s)))) = [] := by
        unfold normalize_text; rw [if_pos hye]
      rw [h2]
      exact (List.isEmpty_iff.mp hye).symm
    · unfold normalize_text
      rw [if_neg hye, y_fix_nfkc s, y_fix_sp s, y_fix_nl s, pyStrip_idem]


/-- Claim C5, amended: a text containing the 2-letter/8-digit/2-letter
shape and no keyword of any document type classifies as Residence Card —
the structural +5 dominates only as long as no competing keywords score
against it. -/
theorem claim5_amended_structural (s : Str)
    (hcard : (reSearch false false residence_card_pattern s).isSome = true)
    (hr : (residence_keywords.all fun kw =>
        !(pyContains kw s || pyContains (kw.map pyLower) (s.map pyLower))) = true)
    (hm : (mynumber_keywords.all fun kw =>
        !(pyContains kw s || pyContains (kw.map pyLower) (s.map pyLower))) = true)
    (hd : (driving_keywords.all fun kw => !pyContains kw s) = true) :
    detect_document_type s = DOC_RESIDENCE_CARD := by
  unfold detect_document_type
  split
  · rfl
  · simp only
    rw [kwScore_zero _ _ _ hr, kwScore_zero _ _ _ hm, rawKwScore_zero _ _ hd]
    decide

/-- Witness for the amended C5 at a bare card number. -/
theorem claim5_amended_structural_witness :
    (reSearch false false residence_card_pattern "AB12345678CD".toList).isSome = true
    ∧ detect_document_type "AB12345678CD".toList = DOC_RESIDENCE_CARD :=
  ⟨by decide,
   claim5_amended_structural "AB12345678CD".toList (by decide) (by decide) (by decide) (by decide)⟩

/-- Claim C6, counterexample: the gender token `男` occurs in `山男谷` as a
plain substring, yet the extracted gender is `None` — the extractor is
anchored to labels or whitespace-delimited tokens, not a whole-text scan. -/
theorem claim6_counterexample :
    pyContains "男".toList c6cxInput = true ∧ extract_gender c6cxInput = none := by
  exact ⟨by decide, by decide⟩

/-- Claim C6, amended: a closed-vocabulary gender token resolves to its
canonical mapped value when label-anchored or whitespace-delimited — here,
for every suffix, text beginning with the label `性別` directly followed by
`男` yields `MALE`; a token embedded between other non-space characters may
yield no match. -/
theorem claim6_amended_anchored (s : Str) :
    extract_gender ("性別男".toList ++ s) = some "MALE".toList := rfl

/-- Claim C7: the My Number extractor resolves the labeled, internally
spaced digits `個人番号1234 5678 9012` to `123456789012` (spaces stripped);
a labeled match wins over an earlier bare 12-digit number; the bare
12-digit fallback fires only with no labeled form present. -/
theorem claim7_mynumber_priority :
    lookupF (extract c7Input (some DOC_MYNUMBER_CARD)) "my_number".toList =
      some (JVal.str "123456789012".toList)
    ∧ extract_mynumber c7PriorityInput = some "123456789012".toList
    ∧ extract_mynumber c7FallbackInput = some "999988887777".toList := by
  exact ⟨by decide, by decide, by decide⟩

/-- Claim C8: the driving-license category extractor returns the
vocabulary tokens present in the text in the vocabulary's declaration
order — a text containing `大型` and `普通` and no other token yields
exactly `[大型, 普通]` — and it returns the absent marker exactly when
zero tokens matched. -/
theorem claim8_license_categories (t : Str)
    (h1 : pyContains "大型".toList t = true)
    (h2 : pyContains "中型".toList t = false)
    (h3 : pyContains "準中型".toList t = false)
    (h4 : pyContains "普通".toList t = true)
    (h5 : pyContains "大特".toList t = false)
    (h6 : pyContains "大自二".toList t = false)
    (h7 : pyContains "普自二".toList t = false)
    (h8 : pyContains "小特".toList t = false)
    (h9 : pyContains "原付".toList t = false)
    (h10 : pyContains "け引".toList t = false)
    (h11 : pyContains "大二".toList t = false)
    (h12 : pyContains "中二".toList t = false)
    (h13 : pyContains "普二".toList t = false) :
    extract_license_categories t = some ["大型".toList, "普通".toList]
    ∧ ∀ u : Str, (extract_license_categories u = none ↔
        (category_list.all fun c => !pyContains c u) = true) := by
  constructor
  · have l1 : pyContains ['大', '型'] t = true := h1
    have l2 : pyContains ['中', '型'] t = false := h2
    have l3 : pyContains ['準', '中', '型'] t = false := h3
    have l4 : pyContains ['普', '通'] t = true := h4
    have l5 : pyContains ['大', '特'] t = false := h5
    have l6 : pyContains ['大', '自', '二'] t = false := h6
    have l7 : pyContains ['普', '自', '二'] t = false := h7
    have l8 : pyContains ['小', '特'] t = false := h8
    have l9 : pyContains ['原', '付'] t = false := h9
    have l10 : pyContains ['け', '引'] t = false := h10
    have l11 : pyContains ['大', '二'] t = false := h11
    have l12 : pyContains ['中', '二'] t = false := h12
    have l13 : pyContains ['普', '二'] t = false := h13
    simp [extract_license_categories, category_list, List.filter_cons,
          l1, l2, l3, l4, l5, l6, l7, l8, l9, l10, l11, l12, l13]
  · intro u
    simp only [extract_license_categories]
    by_cases hc : (category_list.filter fun cat => pyContains cat u).isEmpty = true
    · rw [if_pos hc, ← filter_isEmpty_eq_all]
      simp [hc]
    · rw [if_neg hc, ← filter_isEmpty_eq_all]
      simp [hc]

/-- Witness for C8 at the text `大型 普通`. -/
theorem claim8_license_categories_witness :
    extract_license_categories "大型 普通".toList = some ["大型".toList, "普通".toList] :=
  (claim8_license_categories "大型 普通".toList (by decide) (by decide) (by decide)
    (by decide) (by decide) (by decide) (by decide) (by decide) (by decide) (by decide)
    (by decide) (by decide) (by decide)).1

/-- Claim C9, counterexample: classification is not invariant under
normalization — on `普通ＡＢ１２３４５６７８ＣＤ` (full-width card number)
the classifier answers differently than on its normalized form. -/
theorem claim9_counterexample :
    detect_document_type c9Input ≠ detect_document_type (normalize_text c9Input) := by
  decide

/-- Claim C9, amended: the classifier evaluates its patterns on the raw
input (the normalized text computed in the source is unused), so a
full-width card number does not trigger the +5 structural signal and the
text classifies as a driving license; on the width-folded text the card
regex fires and the classification becomes Residence Card. -/
theorem claim9_amended_raw_matching :
    (reSearch false false residence_card_pattern c9Input).isSome = false
    ∧ (reSearch false false residence_card_pattern (normalize_text c9Input)).isSome = true
    ∧ detect_document_type c9Input = DOC_DRIVING_LICENSE
    ∧ detect_document_type (normalize_text c9Input) = DOC_RESIDENCE_CARD := by
  exact ⟨by decide, by decide, by decide, by decide⟩

/-- Claim C10: for every input the automatic classifier returns one of the
three known document types (never an unknown value), and `extract` with
auto-detection always produces a fully populated schema for one of them. -/
theorem claim10_detect_total (s : Str) :
    (detect_document_type s = DOC_RESIDENCE_CARD ∨
      detect_document_type s = DOC_MYNUMBER_CARD ∨
      detect_document_type s = DOC_DRIVING_LICENSE)
    ∧ (listKeys (extract s none) = kDocType :: RESIDENCE_CARD_FIELDS
       ∨ listKeys (extract s none) = kDocType :: MYNUMBER_CARD_FIELDS
       ∨ listKeys (extract s none) = kDocType :: DRIVING_LICENSE_FIELDS) := by
  refine ⟨detect_mem s, ?_⟩
  cases s with
  | nil => exact Or.inl (by decide)
  | cons c t =>
    rcases detect_mem (c :: t) with h | h | h
    · exact Or.inl (by rw [extract_none_route, h, beq_rc_rc]; exact keys_residence _)
    · refine Or.inr (Or.inl ?_)
      rw [extract_none_route, h, beq_mn_rc, beq_mn_mn]
      exact keys_mynumber _
    · refine Or.inr (Or.inr ?_)
      rw [extract_none_route, h, beq_dl_rc, beq_dl_mn, beq_dl_dl]
      exact keys_driving _

end JFE




